import Mathlib

/-
  Shallow embedding of the recovery volume-abstraction layer (roots.c / roots.h).

  C strings are modelled as `List Char` (no interior NUL appears in any of the
  table data, so `strncmp(a, b, n) == 0` is `a.take n = b.take n` and
  `strcmp(a, b) == 0` is `a = b`).  The four canonical sentinel arrays
  (g_mtd_device, g_mmc_device, g_raw, g_package_file) are distinguished by
  pointer identity in the source, never by content; they are modelled as
  dedicated constructors of `CStr`, whose character content (what strcmp
  would see, "@") is exposed through `CStr.chars`.

  External collaborators (the live mount-table scanner, mount(2), the external
  mount/format helpers, the mtd and mmc utilities) are modelled by an oracle
  `Env` giving each primitive's success or failure, together with an explicit
  mount state `MState` (the set of currently mounted mount points) and an
  event trace recording which primitives were invoked.  A `none` result of a
  fallible operation models the C function reaching undefined behaviour
  (dereferencing / strcmp-ing a null pointer).
-/

set_option maxRecDepth 4000

abbrev Chars := List Char

def cs (s : String) : Chars := s.data

/-- A `const char *` value that is either one of the four canonical sentinel
pointers of roots.c or an ordinary string.  Sentinel identity comparison in C
(`info->device == g_mtd_device`) is constructor equality here. -/
inductive CStr
  | mtdDev
  | mmcDev
  | rawFs
  | packageFile
  | lit (s : Chars)
deriving DecidableEq

/-- The character content a C string function would see when reading one of
these pointers; every sentinel array begins "@\0", so its strcmp-visible
content is "@". -/
def CStr.chars : CStr → Chars
  | .mtdDev => cs "@"
  | .mmcDev => cs "@"
  | .rawFs => cs "@"
  | .packageFile => cs "@"
  | .lit s => s

/-- RootInfo from roots.h. -/
structure RootInfo where
  name : Chars
  device : Option CStr
  device2 : Option CStr
  partition_name : Option Chars
  mount_point : Option Chars
  filesystem : Option CStr
  filesystem_options : Option Chars
deriving DecidableEq

/-- FilesystemOptions from roots.h (both fields are non-null in g_fs_options). -/
structure FilesystemOptions where
  filesystem : Chars
  filesystem_options : Chars
deriving DecidableEq

/-- g_fs_options from roots.c. -/
def g_fs_options : List FilesystemOptions :=
  [ { filesystem := cs "rfs", filesystem_options := cs "llw,check=no" },
    { filesystem := cs "ext4", filesystem_options := cs "noatime,nodiratime,nodev,data=ordered" } ]

/-- g_roots from roots.c, with the device/filesystem macros taking their
default values from roots.h (SDCARD_DEVICE_SECONDARY defaults to the
g_mtd_device sentinel). -/
def g_roots : List RootInfo :=
  [ { name := cs "CACHE:", device := some (CStr.lit (cs "/dev/block/stl11")), device2 := none,
      partition_name := some (cs "cache"), mount_point := some (cs "/cache"),
      filesystem := some (CStr.lit (cs "unknown")), filesystem_options := none },
    { name := cs "DATA:", device := some (CStr.lit (cs "/dev/block/mmcblk0p2")), device2 := none,
      partition_name := some (cs "userdata"), mount_point := some (cs "/data"),
      filesystem := some (CStr.lit (cs "unknown")), filesystem_options := none },
    { name := cs "DATADATA:", device := some (CStr.lit (cs "/dev/block/stl10")), device2 := none,
      partition_name := some (cs "datadata"), mount_point := some (cs "/dbdata"),
      filesystem := some (CStr.lit (cs "unknown")), filesystem_options := none },
    { name := cs "SYSTEM:", device := some (CStr.lit (cs "/dev/block/stl9")), device2 := none,
      partition_name := some (cs "system"), mount_point := some (cs "/system"),
      filesystem := some (CStr.lit (cs "unknown")), filesystem_options := none },
    { name := cs "PACKAGE:", device := none, device2 := none,
      partition_name := none, mount_point := none,
      filesystem := some CStr.packageFile, filesystem_options := none },
    { name := cs "BOOT:", device := some CStr.mtdDev, device2 := none,
      partition_name := some (cs "boot"), mount_point := none,
      filesystem := some CStr.rawFs, filesystem_options := none },
    { name := cs "RECOVERY:", device := some CStr.mtdDev, device2 := none,
      partition_name := some (cs "recovery"), mount_point := some (cs "/"),
      filesystem := some CStr.rawFs, filesystem_options := none },
    { name := cs "SDCARD:", device := some (CStr.lit (cs "/dev/block/mmcblk1p1")),
      device2 := some CStr.mtdDev,
      partition_name := none, mount_point := some (cs "/sdcard"),
      filesystem := some (CStr.lit (cs "vfat")), filesystem_options := none },
    { name := cs "SDEXT:", device := some (CStr.lit (cs "/dev/block/mmcblk1p2")), device2 := none,
      partition_name := none, mount_point := some (cs "/sd-ext"),
      filesystem := some (CStr.lit (cs "auto")), filesystem_options := none },
    { name := cs "MBM:", device := some CStr.mtdDev, device2 := none,
      partition_name := some (cs "mbm"), mount_point := none,
      filesystem := some CStr.rawFs, filesystem_options := none },
    { name := cs "TMP:", device := none, device2 := none,
      partition_name := none, mount_point := some (cs "/tmp"),
      filesystem := none, filesystem_options := none } ]

/-- The scan loop at the top of get_root_info_for_path: find the first ':'
and return the chars of the path up to and including it (the path's first
`len` characters, where `len = c - root_path + 1`); `none` if no ':'. -/
def labelThroughColon : Chars → Option Chars
  | [] => none
  | c :: rest => if c = ':' then some [c] else (labelThroughColon rest).map (fun p => c :: p)

/-- The table loop of get_root_info_for_path: index of the first entry with
`strncmp(info->name, root_path, len) == 0`, i.e. whose name's first `len`
characters equal the path's first `len` characters (`pre`). -/
def find_root_index (pre : Chars) : List RootInfo → Option Nat
  | [] => none
  | info :: rest =>
      if info.name.take pre.length = pre then some 0
      else (find_root_index pre rest).map (fun i => i + 1)

def get_root_index (roots : List RootInfo) (root_path : Chars) : Option Nat :=
  (labelThroughColon root_path).bind (fun pre => find_root_index pre roots)

/-- get_root_info_for_path from roots.c (the returned pointer, as the entry
at the returned table index). -/
def get_root_info_for_path (roots : List RootInfo) (root_path : Chars) : Option RootInfo :=
  (get_root_index roots root_path).bind (fun i => roots[i]?)

/-- The package-binding globals g_package / g_package_path.  A ZipArchive
handle is opaque; it is modelled as a Nat. -/
structure PkgState where
  g_package : Option Nat
  g_package_path : Option Chars
deriving DecidableEq

/-- register_package_root from roots.c.  `strdupFail` is the collaborator
oracle for strdup returning NULL (out of memory). -/
def register_package_root (strdupFail : Bool) (package : Option Nat) (package_path : Chars)
    (st : PkgState) : Int × PkgState :=
  match package with
  | some _ =>
      if strdupFail then (-1, st)
      else (0, { g_package := package, g_package_path := some package_path })
  | none => (0, { g_package := none, g_package_path := none })

/-- translate_package_root_path from roots.c: resolve, require the entry's
filesystem to be the package sentinel, strip the label, check the buffer,
copy the remainder and hand out the currently bound archive (unchecked). -/
def translate_package_root_path (st : PkgState) (roots : List RootInfo) (root_path : Chars)
    (out_buf_len : Nat) : Option (Chars × Option Nat) :=
  match get_root_info_for_path roots root_path with
  | none => none
  | some info =>
      if info.filesystem ≠ some CStr.packageFile then none
      else
        let rem := root_path.drop info.name.length
        if out_buf_len < rem.length + 1 then none
        else some (rem, st.g_package)

/-- The relative remainder computed by translate_root_path: strip the matched
label, then strip leading '/' characters. -/
def relRemainder (info : RootInfo) (root_path : Chars) : Chars :=
  (root_path.drop info.name.length).dropWhile (fun c => c = '/')

/-- The glue step of translate_root_path: append the remainder to the mount
point, inserting a '/' unless the mount point already ends in one. -/
def glue (mp rem : Chars) : Chars :=
  if mp.getLast? = some '/' then mp ++ rem else mp ++ '/' :: rem

/-- translate_root_path from roots.c. -/
def translate_root_path (roots : List RootInfo) (root_path : Chars) (out_buf_len : Nat) :
    Option Chars :=
  if out_buf_len < 1 then none
  else
    match get_root_info_for_path roots root_path with
    | none => none
    | some info =>
        match info.mount_point with
        | none => none
        | some mp =>
            let rem := relRemainder info root_path
            if mp.length + 1 + rem.length + 1 > out_buf_len then none
            else some (glue mp rem)

/-- set_type_internal_fs from roots.c: the lookup result is stored without a
null check; the loop over g_fs_options dereferences it only inside a
successful strcmp match, so an unresolvable path is a null dereference
(modelled as `none`) exactly when new_fs matches a table filesystem. -/
def set_type_internal_fs (roots : List RootInfo) (root_path new_fs : Chars) :
    Option (Int × List RootInfo) :=
  match g_fs_options.find? (fun fo => fo.filesystem == new_fs) with
  | none => some (-1, roots)
  | some fo =>
      match get_root_index roots root_path with
      | none => none
      | some i =>
          match roots[i]? with
          | none => some (-1, roots)
          | some info =>
              some (0, roots.set i
                { info with filesystem := some (CStr.lit fo.filesystem),
                            filesystem_options := some fo.filesystem_options })

/-- get_type_internal_fs from roots.c. -/
def get_type_internal_fs (roots : List RootInfo) (root_path : Chars) : Chars :=
  match get_root_info_for_path roots root_path with
  | none => cs "error"
  | some info =>
      match info.device with
      | none => cs "error"
      | some _ =>
          match info.filesystem with
          | none => []
          | some f => f.chars

/-- The live mount table, as the list of currently mounted mount points. -/
abbrev MState := List Chars

/-- Events recording which external primitives an operation invoked. -/
inductive Ev
  | unmount (mp : Chars)
  | mkdirEv (mp : Chars)
  | mtdMount (part : Chars) (mp : Option Chars)
  | genMount (dev : CStr) (mp : Chars)
  | genMount2 (dev : CStr) (mp : Chars)
  | mtdOpen (part : Chars)
  | mtdErase (part : Chars)
  | mtdClose (part : Chars)
  | mmcFormat (part : Chars)
  | stlFormat (dev : CStr)
  | mke2fs (fs : Chars) (dev : CStr)
  | formatNonMtd (root : Chars)
deriving DecidableEq

/-- Oracle for the external collaborators: whether each primitive succeeds.
All collaborators are out of scope of the module (spec §1), so their outcomes
are free parameters. -/
structure Env where
  scanOk : Bool
  unmountOk : Chars → Bool
  mountOk : CStr → Option Chars → Chars → Option Chars → Bool
  mount2Ok : CStr → Chars → Bool
  mtdFind : Chars → Bool
  mtdMountOk : Chars → Bool
  mtdOpenOk : Bool
  mtdEraseOk : Bool
  mtdCloseOk : Bool
  mmcFind : Chars → Bool
  mmcFormatOk : Bool
  stlOk : Bool
  mke2fsOk : Bool
  nonMtdResult : Int

/-- internal_root_mounted from roots.c: negative if the root has no mount
point, if the mount-table scan fails, or if the mount point is not in the
live mount table; zero if it is mounted. -/
def internal_root_mounted (env : Env) (st : MState) (info : RootInfo) : Int :=
  match info.mount_point with
  | none => -1
  | some mp =>
      if ¬ env.scanOk then -1
      else if mp ∈ st then 0
      else -1

/-- ensure_root_path_unmounted from roots.c.  Result, new mount state, and
the trace of unmount attempts.  A successful unmount removes the mount point
from the live table. -/
def ensure_root_path_unmounted (env : Env) (roots : List RootInfo) (st : MState)
    (root_path : Chars) : Int × MState × List Ev :=
  match get_root_info_for_path roots root_path with
  | none => (-1, st, [])
  | some info =>
      match info.mount_point with
      | none => (0, st, [])
      | some mp =>
          if ¬ env.scanOk then (-1, st, [])
          else if mp ∉ st then (0, st, [])
          else if env.unmountOk mp then (0, st.erase mp, [Ev.unmount mp])
          else (-1, st, [Ev.unmount mp])

/-- A successful mount primitive adds the mount point (when there is one) to
the live mount table. -/
def addMount (st : MState) : Option Chars → MState
  | some mp => mp :: st
  | none => st

/-- ensure_root_path_mounted from roots.c.  Note that the source has no
"no mount point" guard before the flash/MTD dispatch: only the generic
branch checks info->mount_point. -/
def ensure_root_path_mounted (env : Env) (roots : List RootInfo) (st : MState)
    (root_path : Chars) : Int × MState × List Ev :=
  match get_root_info_for_path roots root_path with
  | none => (-1, st, [])
  | some info =>
      if 0 ≤ internal_root_mounted env st info then (0, st, [])
      else if info.device = some CStr.mtdDev then
        match info.partition_name with
        | none => (-1, st, [])
        | some pn =>
            if env.mtdFind pn then
              if env.mtdMountOk pn then
                (0, addMount st info.mount_point, [Ev.mtdMount pn info.mount_point])
              else (-1, st, [Ev.mtdMount pn info.mount_point])
            else (-1, st, [])
      else
        match info.device, info.mount_point, info.filesystem with
        | some dev, some mp, some fs =>
            if fs = CStr.rawFs ∨ fs = CStr.packageFile then (-1, st, [])
            else if env.mountOk dev (some mp) fs.chars info.filesystem_options then
              (0, mp :: st, [Ev.mkdirEv mp, Ev.genMount dev mp])
            else
              match info.device2 with
              | none => (-1, st, [Ev.mkdirEv mp, Ev.genMount dev mp])
              | some d2 =>
                  if env.mount2Ok d2 mp then
                    (0, mp :: st, [Ev.mkdirEv mp, Ev.genMount dev mp, Ev.genMount2 d2 mp])
                  else (-1, st, [Ev.mkdirEv mp, Ev.genMount dev mp, Ev.genMount2 d2 mp])
        | _, _, _ => (-1, st, [])

/-- The candidate loop of detect_internal_fs: the first g_fs_options entry
whose trial mount succeeds (failed trial mounts leave no state behind). -/
def first_mountable (env : Env) (dev : CStr) (mp : Option Chars) :
    List FilesystemOptions → Option FilesystemOptions
  | [] => none
  | fo :: rest =>
      if env.mountOk dev mp fo.filesystem (some fo.filesystem_options) then some fo
      else first_mountable env dev mp rest

/-- detect_internal_fs from roots.c.  Returns result, final mount state and
the (possibly updated) table.  The result of the final unmount after a
successful trial mount is ignored by the source. -/
def detect_internal_fs (env : Env) (roots : List RootInfo) (st : MState) (root_path : Chars) :
    Int × MState × List RootInfo :=
  match get_root_index roots root_path with
  | none => (-1, st, roots)
  | some i =>
      match roots[i]? with
      | none => (-1, st, roots)
      | some info =>
          match info.device with
          | none => (-1, st, roots)
          | some dev =>
              let u := ensure_root_path_unmounted env roots st root_path
              if u.1 < 0 then (u.1, u.2.1, roots)
              else
                match first_mountable env dev info.mount_point g_fs_options with
                | none => (-1, u.2.1, roots)
                | some fo =>
                    let roots2 := roots.set i
                      { info with filesystem := some (CStr.lit fo.filesystem),
                                  filesystem_options := some fo.filesystem_options }
                    let st2 := addMount u.2.1 info.mount_point
                    let u2 := ensure_root_path_unmounted env roots2 st2 root_path
                    (0, u2.2.1, roots2)

/-- The trailing rfs / "ext*" / non-mtd fallback branches of
format_root_device.  `none` models the undefined behaviour of
strcmp(NULL, "rfs") when the entry's filesystem pointer is null. -/
def formatGeneric (env : Env) (dev : CStr) (fs : Option CStr) (st : MState) (ev : List Ev)
    (root : Chars) : Option (Int × MState × List Ev) :=
  match fs with
  | none => none
  | some f =>
      if f.chars = cs "rfs" then
        some (if env.stlOk then 0 else -1, st, ev ++ [Ev.stlFormat dev])
      else if f.chars.take 3 = cs "ext" then
        some (if env.mke2fsOk then 0 else -1, st, ev ++ [Ev.mke2fs f.chars dev])
      else
        some (env.nonMtdResult, st, ev ++ [Ev.formatNonMtd root])

/-- The MMC branch of format_root_device: locate the partition (fail if
absent); if the filesystem is "ext3" invoke the MMC ext3 formatter, whose
failure is only logged; then fall through to the generic branches. -/
def formatMmc (env : Env) (info : RootInfo) (dev : CStr) (st : MState) (ev : List Ev)
    (root : Chars) : Option (Int × MState × List Ev) :=
  match info.partition_name with
  | none => none
  | some pn =>
      if env.mmcFind pn then
        match info.filesystem with
        | none => none
        | some f =>
            if f.chars = cs "ext3" then
              formatGeneric env dev info.filesystem st (ev ++ [Ev.mmcFormat pn]) root
            else formatGeneric env dev info.filesystem st ev root
      else some (-1, st, ev)

/-- The flash/MTD branch of format_root_device: locate the partition (fail if
absent); if the filesystem is the raw sentinel or "yaffs2", open/erase/close
the whole partition, any stage failing aborting with -1; otherwise fall
through to the generic branches (the mmc test cannot match here). -/
def formatMtd (env : Env) (info : RootInfo) (dev : CStr) (st : MState) (ev : List Ev)
    (root : Chars) : Option (Int × MState × List Ev) :=
  match info.partition_name with
  | none => none
  | some pn =>
      if env.mtdFind pn then
        match info.filesystem with
        | none => none
        | some f =>
            if f = CStr.rawFs ∨ f.chars = cs "yaffs2" then
              if ¬ env.mtdOpenOk then some (-1, st, ev ++ [Ev.mtdOpen pn])
              else if ¬ env.mtdEraseOk then
                some (-1, st, ev ++ [Ev.mtdOpen pn, Ev.mtdErase pn, Ev.mtdClose pn])
              else if ¬ env.mtdCloseOk then
                some (-1, st, ev ++ [Ev.mtdOpen pn, Ev.mtdErase pn, Ev.mtdClose pn])
              else some (0, st, ev ++ [Ev.mtdOpen pn, Ev.mtdErase pn, Ev.mtdClose pn])
            else formatGeneric env dev info.filesystem st ev root
      else some (-1, st, ev)

/-- format_root_device from roots.c: resolve (fail if the device is absent),
unmount first when there is a mount point (propagating an unmount failure
before any format primitive runs), then dispatch on the device-kind
sentinel and the filesystem string. -/
def format_root_device (env : Env) (roots : List RootInfo) (st : MState) (root : Chars) :
    Option (Int × MState × List Ev) :=
  match get_root_info_for_path roots root with
  | none => some (-1, st, [])
  | some info =>
      match info.device with
      | none => some (-1, st, [])
      | some dev =>
          let u := if info.mount_point ≠ none then ensure_root_path_unmounted env roots st root
                   else (0, st, [])
          if u.1 < 0 then some (u.1, u.2.1, u.2.2)
          else
            if dev = CStr.mtdDev then formatMtd env info dev u.2.1 u.2.2 root
            else if dev = CStr.mmcDev then formatMmc env info dev u.2.1 u.2.2 root
            else formatGeneric env dev info.filesystem u.2.1 u.2.2 root

/-- An all-succeeding collaborator oracle. -/
def envAll : Env :=
  { scanOk := true, unmountOk := fun _ => true, mountOk := fun _ _ _ _ => true,
    mount2Ok := fun _ _ => true, mtdFind := fun _ => true, mtdMountOk := fun _ => true,
    mtdOpenOk := true, mtdEraseOk := true, mtdCloseOk := true, mmcFind := fun _ => true,
    mmcFormatOk := true, stlOk := true, mke2fsOk := true, nonMtdResult := 0 }

/-- C10: register_package_root is atomic on a strdup failure: it returns -1
before touching either the bound archive or the owned path string, so the
whole PkgState is unchanged. -/
theorem c10_register_oom_atomic (st : PkgState) (package : Option Nat) (package_path : Chars)
    (h : package.isSome = true) :
    register_package_root true package package_path st = (-1, st) := by
  cases package with
  | none => simp at h
  | some a => rfl

theorem c10_witness :
    register_package_root true (some 7) (cs "p")
        { g_package := some 3, g_package_path := some (cs "q") } =
      (-1, { g_package := some 3, g_package_path := some (cs "q") }) :=
  c10_register_oom_atomic _ _ _ rfl

/-- C1 counterexample: after binding archive 1 and then binding null,
translate_package_root_path on "PACKAGE:bar" does NOT fail: it succeeds and
returns the relative path together with a null archive, because the source
never checks whether a package is bound. -/
theorem c1_counterexample :
    translate_package_root_path
        ((register_package_root false none (cs "x")
            ((register_package_root false (some 1) (cs "foo")
                { g_package := none, g_package_path := none }).2)).2)
        g_roots (cs "PACKAGE:bar") 4 =
      some (cs "bar", none) := by decide

theorem label_package_append (rem : Chars) :
    labelThroughColon (cs "PACKAGE:" ++ rem) = some (cs "PACKAGE:") := by
  show labelThroughColon ('P' :: 'A' :: 'C' :: 'K' :: 'A' :: 'G' :: 'E' :: ':' :: rem) =
    some ['P', 'A', 'C', 'K', 'A', 'G', 'E', ':']
  simp [labelThroughColon]

theorem resolve_package_append (rem : Chars) :
    get_root_info_for_path g_roots (cs "PACKAGE:" ++ rem) =
      some { name := cs "PACKAGE:", device := none, device2 := none,
             partition_name := none, mount_point := none,
             filesystem := some CStr.packageFile, filesystem_options := none } := by
  rw [get_root_info_for_path, get_root_index, label_package_append]
  decide

/-- C1 amended: after bindPackage with a non-null archive, translateInPackage
on a path under the package root (with an adequate buffer) yields the
relative path and that archive; after a subsequent bindPackage(null, _),
translateInPackage does not fail — it still succeeds, returning the relative
path with a null archive, because translate_package_root_path never checks
the binding. -/
theorem translate_package_any (st : PkgState) (rem : Chars) (cap : Nat)
    (hcap : rem.length + 1 ≤ cap) :
    translate_package_root_path st g_roots (cs "PACKAGE:" ++ rem) cap =
      some (rem, st.g_package) := by
  have hdrop : (cs "PACKAGE:" ++ rem).drop (cs "PACKAGE:").length = rem :=
    List.drop_left _ _
  simp only [translate_package_root_path, resolve_package_append]
  rw [if_neg (by simp)]
  simp only [hdrop]
  rw [if_neg (by omega)]

theorem c1_package_binding (st : PkgState) (a : Nat) (p q rem : Chars) (cap : Nat)
    (hcap : rem.length + 1 ≤ cap) :
    translate_package_root_path ((register_package_root false (some a) p st).2) g_roots
        (cs "PACKAGE:" ++ rem) cap = some (rem, some a) ∧
    translate_package_root_path
        ((register_package_root false none q ((register_package_root false (some a) p st).2)).2)
        g_roots (cs "PACKAGE:" ++ rem) cap = some (rem, none) :=
  ⟨translate_package_any { g_package := some a, g_package_path := some p } rem cap hcap,
   translate_package_any { g_package := none, g_package_path := none } rem cap hcap⟩

theorem c1_witness :
    translate_package_root_path
        ((register_package_root false (some 7) (cs "foo")
            { g_package := none, g_package_path := none }).2) g_roots
        (cs "PACKAGE:" ++ cs "bar") 4 = some (cs "bar", some 7) ∧
    translate_package_root_path
        ((register_package_root false none (cs "x")
            ((register_package_root false (some 7) (cs "foo")
                { g_package := none, g_package_path := none }).2)).2) g_roots
        (cs "PACKAGE:" ++ cs "bar") 4 = some (cs "bar", none) :=
  c1_package_binding { g_package := none, g_package_path := none } 7 (cs "foo") (cs "x")
    (cs "bar") 4 (by decide)

/-- C9 counterexample: with an unresolvable root_path (no separator) and a
filesystem that matches no FilesystemOptionTable entry, set_type_internal_fs
does NOT dereference the null lookup result: it returns -1 normally with the
table unchanged. -/
theorem c9_counterexample :
    set_type_internal_fs g_roots (cs "NOPE") (cs "vfat") = some (-1, g_roots) := by decide

/-- C9 amended: set_type_internal_fs never checks that the label resolves,
and the null lookup result is dereferenced (undefined behaviour, modelled as
`none`) exactly when new_fs matches a FilesystemOptionTable entry while the
path does not resolve; when new_fs matches no entry it returns -1 leaving
the table unchanged even for unresolvable paths; under the precondition
that the path resolves, it returns 0 and copies both filesystem and
filesystem_options from the matching entry, or returns -1 leaving the table
unchanged when nothing matches. -/
theorem c9_set_type_spec (roots : List RootInfo) (root_path new_fs : Chars) :
    (set_type_internal_fs roots root_path new_fs = none ↔
      (g_fs_options.find? (fun fo => fo.filesystem == new_fs)).isSome = true ∧
        get_root_index roots root_path = none) ∧
    (∀ i info, get_root_index roots root_path = some i → roots[i]? = some info →
      set_type_internal_fs roots root_path new_fs =
        match g_fs_options.find? (fun fo => fo.filesystem == new_fs) with
        | some fo => some (0, roots.set i
            { info with filesystem := some (CStr.lit fo.filesystem),
                        filesystem_options := some fo.filesystem_options })
        | none => some (-1, roots)) := by
  constructor
  · cases hf : g_fs_options.find? (fun fo => fo.filesystem == new_fs) with
    | none => simp [set_type_internal_fs, hf]
    | some fo =>
        cases hi : get_root_index roots root_path with
        | none => simp [set_type_internal_fs, hf, hi]
        | some i =>
            cases hg : roots[i]? with
            | none => simp [set_type_internal_fs, hf, hi, hg]
            | some info => simp [set_type_internal_fs, hf, hi, hg]
  · intro i info hi hg
    cases hf : g_fs_options.find? (fun fo => fo.filesystem == new_fs) with
    | none => simp [set_type_internal_fs, hf]
    | some fo => simp [set_type_internal_fs, hf, hi, hg]

theorem c9_witness :
    set_type_internal_fs g_roots (cs "SYSTEM:") (cs "ext4") =
      some (0, g_roots.set 3
        { name := cs "SYSTEM:", device := some (CStr.lit (cs "/dev/block/stl9")), device2 := none,
          partition_name := some (cs "system"), mount_point := some (cs "/system"),
          filesystem := some (CStr.lit (cs "ext4")),
          filesystem_options := some (cs "noatime,nodiratime,nodev,data=ordered") }) := by
  have h := (c9_set_type_spec g_roots (cs "SYSTEM:") (cs "ext4")).2 3
    { name := cs "SYSTEM:", device := some (CStr.lit (cs "/dev/block/stl9")), device2 := none,
      partition_name := some (cs "system"), mount_point := some (cs "/system"),
      filesystem := some (CStr.lit (cs "unknown")), filesystem_options := none }
    (by decide) (by decide)
  rw [h]
  decide

theorem glue_length_le (mp rem : Chars) : (glue mp rem).length ≤ mp.length + 1 + rem.length := by
  unfold glue
  split_ifs
  · simp only [List.length_append]
    omega
  · simp only [List.length_append, List.length_cons]
    omega

theorem translate_root_path_eq (roots : List RootInfo) (root_path : Chars) (cap : Nat)
    (info : RootInfo) (mp : Chars)
    (hres : get_root_info_for_path roots root_path = some info)
    (hmp : info.mount_point = some mp) :
    translate_root_path roots root_path cap =
      if mp.length + 1 + (relRemainder info root_path).length + 1 ≤ cap
      then some (glue mp (relRemainder info root_path))
      else none := by
  simp only [translate_root_path, hres, hmp]
  split_ifs <;> first | rfl | omega

/-- C5: for every resolvable label with a mount point, translate_root_path
yields mount-point ++ separator ++ stripped-remainder, succeeding exactly
when the destination capacity can hold mount-point + separator + remainder +
terminator; on success the written string (plus its terminator) fits within
the capacity, so the destination is never overflowed. -/
theorem c5_translate_spec (roots : List RootInfo) (root_path : Chars) (cap : Nat)
    (info : RootInfo) (mp : Chars)
    (hres : get_root_info_for_path roots root_path = some info)
    (hmp : info.mount_point = some mp) :
    (translate_root_path roots root_path cap =
      if mp.length + 1 + (relRemainder info root_path).length + 1 ≤ cap
      then some (glue mp (relRemainder info root_path))
      else none) ∧
    (∀ out, translate_root_path roots root_path cap = some out → out.length + 1 ≤ cap) := by
  have h := translate_root_path_eq roots root_path cap info mp hres hmp
  refine ⟨h, fun out hout => ?_⟩
  rw [h] at hout
  by_cases hc : mp.length + 1 + (relRemainder info root_path).length + 1 ≤ cap
  · rw [if_pos hc] at hout
    have hlen := glue_length_le mp (relRemainder info root_path)
    have : out = glue mp (relRemainder info root_path) := by
      exact (Option.some.injEq _ _).mp hout.symm
    rw [this]
    omega
  · rw [if_neg hc] at hout
    exact absurd hout (by simp)

theorem c5_witness :
    translate_root_path g_roots (cs "SYSTEM:lib") 12 = some (cs "/system/lib") := by
  have h := (c5_translate_spec g_roots (cs "SYSTEM:lib") 12
    { name := cs "SYSTEM:", device := some (CStr.lit (cs "/dev/block/stl9")), device2 := none,
      partition_name := some (cs "system"), mount_point := some (cs "/system"),
      filesystem := some (CStr.lit (cs "unknown")), filesystem_options := none }
    (cs "/system") (by decide) rfl).1
  rw [h]
  decide

theorem resolve_own_name :
    ∀ info ∈ g_roots, get_root_info_for_path g_roots info.name = some info := by decide

/-- C8: for every configured table entry with a mount point, translating the
entry's own label with an empty relative path yields exactly the mount
point, up to ensuring it ends in the path separator (a mount point already
ending in '/' is returned unchanged, otherwise a single '/' is appended). -/
theorem c8_translate_label (info : RootInfo) (hmem : info ∈ g_roots) (mp : Chars) (cap : Nat)
    (hmp : info.mount_point = some mp) (hcap : mp.length + 2 ≤ cap) :
    translate_root_path g_roots info.name cap =
      some (if mp.getLast? = some '/' then mp else mp ++ ['/']) := by
  have hres := resolve_own_name info hmem
  have hrem : relRemainder info info.name = [] := by
    simp [relRemainder]
  have h := translate_root_path_eq g_roots info.name cap info mp hres hmp
  simp only [hrem, List.length_nil] at h
  rw [h, if_pos (by omega)]
  unfold glue
  split_ifs <;> simp

theorem c8_witness :
    translate_root_path g_roots (cs "SYSTEM:") 9 = some (cs "/system/") := by
  have h := c8_translate_label
    { name := cs "SYSTEM:", device := some (CStr.lit (cs "/dev/block/stl9")), device2 := none,
      partition_name := some (cs "system"), mount_point := some (cs "/system"),
      filesystem := some (CStr.lit (cs "unknown")), filesystem_options := none }
    (by decide) (cs "/system") 9 rfl (by decide)
  rw [h]
  decide

/-- C3 counterexample: BOOT: resolves to an entry with no mount point and the
flash/MTD device marker, yet ensure_root_path_mounted does not fail before
dispatching — it scans the flash partitions and invokes the flash mount
primitive (here even reporting success), instead of failing NotMountable
with no mount attempted. -/
theorem c3_counterexample :
    ensure_root_path_mounted envAll g_roots [] (cs "BOOT:") =
      (0, [], [Ev.mtdMount (cs "boot") none]) := by decide

/-- C3 amended: an entry with no mount point fails with no mount attempted
only when its device is not the flash/MTD marker; when the device is the
flash/MTD marker and the named partition is found, the flash mount primitive
IS invoked (with the absent mount point) and its result is returned. -/
theorem c3_no_mount_point_dispatch (env : Env) (roots : List RootInfo) (st : MState)
    (root_path : Chars) :
    (∀ info, get_root_info_for_path roots root_path = some info →
      info.mount_point = none → info.device ≠ some CStr.mtdDev →
      ensure_root_path_mounted env roots st root_path = (-1, st, [])) ∧
    (∀ info pn, get_root_info_for_path roots root_path = some info →
      info.mount_point = none → info.device = some CStr.mtdDev →
      info.partition_name = some pn → env.mtdFind pn = true →
      ensure_root_path_mounted env roots st root_path =
        ((if env.mtdMountOk pn then 0 else -1 : Int), st, [Ev.mtdMount pn none])) := by
  constructor
  · intro info hres hmp hdev
    have h1 : internal_root_mounted env st info = -1 := by
      simp [internal_root_mounted, hmp]
    simp only [ensure_root_path_mounted, hres, h1]
    rw [if_neg (by decide), if_neg hdev, hmp]
    cases hd : info.device with
    | none => rfl
    | some dev => cases hf : info.filesystem <;> rfl
  · intro info pn hres hmp hdev hpn hfind
    have h1 : internal_root_mounted env st info = -1 := by
      simp [internal_root_mounted, hmp]
    simp only [ensure_root_path_mounted, hres, h1]
    rw [if_neg (by decide), if_pos hdev, hpn]
    simp only [hfind, if_pos, hmp, if_true]
    cases hm : env.mtdMountOk pn <;> simp [addMount]

theorem c3_witness :
    ensure_root_path_mounted envAll g_roots [] (cs "PACKAGE:") = (-1, [], []) ∧
    ensure_root_path_mounted envAll g_roots [] (cs "MBM:") =
      (0, [], [Ev.mtdMount (cs "mbm") none]) := by
  constructor
  · exact (c3_no_mount_point_dispatch envAll g_roots [] (cs "PACKAGE:")).1
      { name := cs "PACKAGE:", device := none, device2 := none,
        partition_name := none, mount_point := none,
        filesystem := some CStr.packageFile, filesystem_options := none }
      (by decide) rfl (by decide)
  · have h := (c3_no_mount_point_dispatch envAll g_roots [] (cs "MBM:")).2
      { name := cs "MBM:", device := some CStr.mtdDev, device2 := none,
        partition_name := some (cs "mbm"), mount_point := none,
        filesystem := some CStr.rawFs, filesystem_options := none }
      (cs "mbm") (by decide) rfl rfl rfl rfl
    rw [h]
    decide

/-- C6: formatting a resolvable volume (with a configured device) that has a
mount point and is currently mounted first attempts the unmount; when the
unmount primitive fails, format_root_device returns that failure and the
event trace contains only the unmount attempt — no erase/format primitive
and no external format helper is invoked. -/
theorem c6_format_busy (env : Env) (roots : List RootInfo) (st : MState) (root : Chars)
    (info : RootInfo) (dev : CStr) (mp : Chars)
    (hres : get_root_info_for_path roots root = some info)
    (hdev : info.device = some dev)
    (hmp : info.mount_point = some mp)
    (hscan : env.scanOk = true)
    (hmem : mp ∈ st)
    (hunm : env.unmountOk mp = false) :
    format_root_device env roots st root = some (-1, st, [Ev.unmount mp]) := by
  have hens : ensure_root_path_unmounted env roots st root = (-1, st, [Ev.unmount mp]) := by
    simp [ensure_root_path_unmounted, hres, hmp, hscan, hmem, hunm]
  simp [format_root_device, hres, hdev, hmp, hens]

theorem c6_witness :
    format_root_device { envAll with unmountOk := fun _ => false } g_roots [cs "/system"]
        (cs "SYSTEM:") = some (-1, [cs "/system"], [Ev.unmount (cs "/system")]) :=
  c6_format_busy { envAll with unmountOk := fun _ => false } g_roots [cs "/system"]
    (cs "SYSTEM:")
    { name := cs "SYSTEM:", device := some (CStr.lit (cs "/dev/block/stl9")), device2 := none,
      partition_name := some (cs "system"), mount_point := some (cs "/system"),
      filesystem := some (CStr.lit (cs "unknown")), filesystem_options := none }
    (CStr.lit (cs "/dev/block/stl9")) (cs "/system")
    (by decide) rfl rfl rfl (by decide) rfl

theorem ensure_mounted_of_mounted (env : Env) (roots : List RootInfo) (st : MState)
    (root_path : Chars) (info : RootInfo) (mp : Chars)
    (hscan : env.scanOk = true)
    (hres : get_root_info_for_path roots root_path = some info)
    (hmp : info.mount_point = some mp) (hmem : mp ∈ st) :
    ensure_root_path_mounted env roots st root_path = (0, st, []) := by
  have h1 : internal_root_mounted env st info = 0 := by
    simp [internal_root_mounted, hmp, hscan, hmem]
  simp [ensure_root_path_mounted, hres, h1]

theorem ensure_mounted_success_mem (env : Env) (roots : List RootInfo) (st : MState)
    (root_path : Chars) (info : RootInfo) (mp : Chars)
    (hres : get_root_info_for_path roots root_path = some info)
    (hmp : info.mount_point = some mp)
    (h0 : (ensure_root_path_mounted env roots st root_path).1 = 0) :
    mp ∈ (ensure_root_path_mounted env roots st root_path).2.1 := by
  by_cases hin : 0 ≤ internal_root_mounted env st info
  · have hmem : mp ∈ st := by
      by_contra hn
      have hneg : internal_root_mounted env st info = -1 := by
        simp [internal_root_mounted, hmp, hn]
      rw [hneg] at hin
      omega
    simp [ensure_root_path_mounted, hres, hin, hmem]
  · simp only [ensure_root_path_mounted, hres, if_neg hin] at h0 ⊢
    by_cases hdev : info.device = some CStr.mtdDev
    · rw [if_pos hdev] at h0 ⊢
      cases hpn : info.partition_name with
      | none =>
          simp only [hpn] at h0 ⊢
          simp at h0
      | some pn =>
          simp only [hpn] at h0 ⊢
          by_cases hf : env.mtdFind pn = true
          · by_cases hm : env.mtdMountOk pn = true
            · simp only [hf, hm, if_pos] at h0 ⊢
              simp [hmp, addMount]
            · simp only [hf, hm] at h0
              simp at h0
          · simp only [hf] at h0
            simp at h0
    · rw [if_neg hdev] at h0 ⊢
      rcases hd : info.device with _ | dev
      · rcases hfs : info.filesystem with _ | fs
        · simp only [hd, hfs, hmp] at h0
          simp at h0
        · simp only [hd, hfs, hmp] at h0
          simp at h0
      · rcases hfs : info.filesystem with _ | fs
        · simp only [hd, hfs, hmp] at h0
          simp at h0
        · simp only [hd, hfs, hmp] at h0 ⊢
          by_cases hraw : fs = CStr.rawFs ∨ fs = CStr.packageFile
          · rw [if_pos hraw] at h0
            simp at h0
          · rw [if_neg hraw] at h0 ⊢
            by_cases hmo : env.mountOk dev (some mp) fs.chars info.filesystem_options = true
            · rw [if_pos hmo]
              simp
            · rw [if_neg hmo] at h0 ⊢
              rcases hd2 : info.device2 with _ | d2
              · simp only [hd2] at h0
                simp at h0
              · simp only [hd2] at h0 ⊢
                by_cases hm2 : env.mount2Ok d2 mp = true
                · rw [if_pos hm2]
                  simp
                · rw [if_neg hm2] at h0
                  simp at h0

/-- C7: ensure_root_path_mounted is idempotent.  If the mount-table scan
works and the label resolves to an entry with a mount point, then after a
successful call an immediate second call returns success with the state
unchanged and an empty event trace — no second mount is issued, because the
already-mounted check against the live mount table short-circuits. -/
theorem c7_ensure_mounted_idempotent (env : Env) (roots : List RootInfo) (st : MState)
    (root_path : Chars) (info : RootInfo) (mp : Chars)
    (hscan : env.scanOk = true)
    (hres : get_root_info_for_path roots root_path = some info)
    (hmp : info.mount_point = some mp)
    (h0 : (ensure_root_path_mounted env roots st root_path).1 = 0) :
    ensure_root_path_mounted env roots ((ensure_root_path_mounted env roots st root_path).2.1)
        root_path =
      (0, (ensure_root_path_mounted env roots st root_path).2.1, []) :=
  ensure_mounted_of_mounted env roots _ root_path info mp hscan hres hmp
    (ensure_mounted_success_mem env roots st root_path info mp hres hmp h0)

theorem c7_witness :
    ensure_root_path_mounted envAll g_roots
        ((ensure_root_path_mounted envAll g_roots [] (cs "SYSTEM:")).2.1) (cs "SYSTEM:") =
      (0, (ensure_root_path_mounted envAll g_roots [] (cs "SYSTEM:")).2.1, []) :=
  c7_ensure_mounted_idempotent envAll g_roots [] (cs "SYSTEM:")
    { name := cs "SYSTEM:", device := some (CStr.lit (cs "/dev/block/stl9")), device2 := none,
      partition_name := some (cs "system"), mount_point := some (cs "/system"),
      filesystem := some (CStr.lit (cs "unknown")), filesystem_options := none }
    (cs "/system") rfl (by decide) rfl (by decide)

/-- C4: formatting a volume whose device is the MMC-raw marker and whose
filesystem is "ext3" (with the partition found and the volume not mounted)
invokes the MMC-specific ext3 formatter AND afterwards still evaluates the
generic branches: the external ext filesystem creator also runs on the same
device, and the overall result is the ext creator's result, independent of
the MMC formatter's outcome (its failure is only logged). -/
theorem c4_format_mmc_ext3 (env : Env) (roots : List RootInfo) (st : MState) (root : Chars)
    (info : RootInfo) (pn : Chars)
    (hres : get_root_info_for_path roots root = some info)
    (hdev : info.device = some CStr.mmcDev)
    (hfs : info.filesystem = some (CStr.lit (cs "ext3")))
    (hpn : info.partition_name = some pn)
    (hfind : env.mmcFind pn = true)
    (hscan : env.scanOk = true)
    (hnm : ∀ mp, info.mount_point = some mp → mp ∉ st) :
    format_root_device env roots st root =
      some ((if env.mke2fsOk = true then (0 : Int) else -1), st,
            [Ev.mmcFormat pn, Ev.mke2fs (cs "ext3") CStr.mmcDev]) := by
  have hu : (if info.mount_point ≠ none then ensure_root_path_unmounted env roots st root
             else (0, st, [])) = ((0 : Int), st, ([] : List Ev)) := by
    cases hmpt : info.mount_point with
    | none => simp
    | some m =>
        rw [if_pos (by simp)]
        have hm := hnm m hmpt
        simp [ensure_root_path_unmounted, hres, hmpt, hscan, hm]
  simp only [format_root_device, hres, hdev, hu]
  rw [if_neg (by simp)]
  rw [if_neg (by decide)]
  simp only [if_true]
  simp only [formatMmc, hpn, hfs, hfind, if_true]
  rw [if_pos (show (CStr.lit (cs "ext3")).chars = cs "ext3" from rfl)]
  simp only [formatGeneric]
  rw [if_neg (by decide), if_pos (by decide)]
  simp [CStr.chars]

theorem c4_witness :
    format_root_device envAll
        [ { name := cs "MMCVOL:", device := some CStr.mmcDev, device2 := none,
            partition_name := some (cs "part0"), mount_point := none,
            filesystem := some (CStr.lit (cs "ext3")), filesystem_options := none } ]
        [] (cs "MMCVOL:") =
      some (0, [], [Ev.mmcFormat (cs "part0"), Ev.mke2fs (cs "ext3") CStr.mmcDev]) := by
  have h := c4_format_mmc_ext3 envAll
    [ { name := cs "MMCVOL:", device := some CStr.mmcDev, device2 := none,
        partition_name := some (cs "part0"), mount_point := none,
        filesystem := some (CStr.lit (cs "ext3")), filesystem_options := none } ]
    [] (cs "MMCVOL:")
    { name := cs "MMCVOL:", device := some CStr.mmcDev, device2 := none,
      partition_name := some (cs "part0"), mount_point := none,
      filesystem := some (CStr.lit (cs "ext3")), filesystem_options := none }
    (cs "part0") (by decide) rfl rfl rfl rfl rfl (by intro mp hmp; simp at hmp)
  rw [h]
  decide

/-- An oracle on which every primitive succeeds except unmounting. -/
def envNoUnmount : Env :=
  { envAll with unmountOk := fun _ => false }

/-- C2 counterexample: with SYSTEM: initially unmounted, the first candidate
trial mount succeeding, and the unmount primitive failing, detect_internal_fs
returns success (0) while /system is still in the live mount table: the
source ignores the result of the final ensure_root_path_unmounted, so the
probed volume IS left mounted even though the operation reports success. -/
theorem c2_counterexample :
    (detect_internal_fs envNoUnmount g_roots [] (cs "SYSTEM:")).1 = 0 ∧
    cs "/system" ∈ (detect_internal_fs envNoUnmount g_roots [] (cs "SYSTEM:")).2.1 := by
  decide

theorem find_root_index_set (pre : Chars) (l : List RootInfo) (i : Nat) (a b : RootInfo)
    (hb : l[i]? = some b) (hname : a.name = b.name) :
    find_root_index pre (l.set i a) = find_root_index pre l := by
  induction l generalizing i with
  | nil => simp at hb
  | cons x xs ih =>
      cases i with
      | zero =>
          rw [List.getElem?_cons_zero, Option.some.injEq] at hb
          subst hb
          simp [List.set, find_root_index, hname]
      | succ n =>
          rw [List.getElem?_cons_succ] at hb
          simp [List.set, find_root_index, ih n hb]

theorem get_root_index_set (roots : List RootInfo) (rp : Chars) (i : Nat) (a b : RootInfo)
    (hb : roots[i]? = some b) (hname : a.name = b.name) :
    get_root_index (roots.set i a) rp = get_root_index roots rp := by
  unfold get_root_index
  cases h : labelThroughColon rp with
  | none => rfl
  | some pre => simp [find_root_index_set pre roots i a b hb hname]

theorem ensure_unmounted_clears (env : Env) (roots : List RootInfo) (st : MState)
    (rp : Chars) (info : RootInfo) (mp : Chars)
    (hscan : env.scanOk = true) (hu : env.unmountOk mp = true) (hnd : st.Nodup)
    (hres : get_root_info_for_path roots rp = some info)
    (hmp : info.mount_point = some mp) :
    (ensure_root_path_unmounted env roots st rp).1 = 0 ∧
    mp ∉ (ensure_root_path_unmounted env roots st rp).2.1 ∧
    (ensure_root_path_unmounted env roots st rp).2.1.Nodup := by
  by_cases hm : mp ∈ st
  · have h1 : ensure_root_path_unmounted env roots st rp = (0, st.erase mp, [Ev.unmount mp]) := by
      simp [ensure_root_path_unmounted, hres, hmp, hscan, hm, hu]
    rw [h1]
    exact ⟨rfl, hnd.not_mem_erase, hnd.erase mp⟩
  · have h1 : ensure_root_path_unmounted env roots st rp = (0, st, []) := by
      simp [ensure_root_path_unmounted, hres, hmp, hscan, hm]
    rw [h1]
    exact ⟨rfl, hm, hnd⟩

/-- C2 amended: detect_internal_fs always issues the unmount before returning
success, but only attempts it; the final unmount's result is ignored.  When
the collaborators behave — the mount-table scan succeeds and the unmount
primitive succeeds — every resolvable label with a configured device and a
mount point is left unmounted when detect returns, on success and on
failure alike.  (The counterexample shows the guarantee fails when the
unmount primitive fails.) -/
theorem c2_detect_leaves_unmounted (env : Env) (roots : List RootInfo) (st : MState)
    (rp : Chars) (i : Nat) (info : RootInfo) (dev : CStr) (mp : Chars)
    (hscan : env.scanOk = true)
    (hunm : ∀ m, env.unmountOk m = true)
    (hnd : st.Nodup)
    (hidx : get_root_index roots rp = some i)
    (hinfo : roots[i]? = some info)
    (hdev : info.device = some dev)
    (hmp : info.mount_point = some mp) :
    mp ∉ (detect_internal_fs env roots st rp).2.1 := by
  have hres : get_root_info_for_path roots rp = some info := by
    simp [get_root_info_for_path, hidx, hinfo]
  have h1 := ensure_unmounted_clears env roots st rp info mp hscan (hunm mp) hnd hres hmp
  simp only [detect_internal_fs, hidx, hinfo, hdev]
  rw [if_neg (by rw [h1.1]; decide)]
  cases hfm : first_mountable env dev info.mount_point g_fs_options with
  | none =>
      simp only [hfm]
      exact h1.2.1
  | some fo =>
      simp only [hfm]
      have hi_lt : i < roots.length := by
        obtain ⟨hlt, -⟩ := List.getElem?_eq_some.mp hinfo
        exact hlt
      have hidx2 : get_root_index (roots.set i
          { info with filesystem := some (CStr.lit fo.filesystem),
                      filesystem_options := some fo.filesystem_options }) rp = some i := by
        rw [get_root_index_set roots rp i
          { info with filesystem := some (CStr.lit fo.filesystem),
                      filesystem_options := some fo.filesystem_options } info hinfo rfl]
        exact hidx
      have hinfo2 : (roots.set i
          { info with filesystem := some (CStr.lit fo.filesystem),
                      filesystem_options := some fo.filesystem_options })[i]? = some
          { info with filesystem := some (CStr.lit fo.filesystem),
                      filesystem_options := some fo.filesystem_options } :=
        List.getElem?_set_eq_of_lt _ hi_lt
      have hres2 : get_root_info_for_path (roots.set i
          { info with filesystem := some (CStr.lit fo.filesystem),
                      filesystem_options := some fo.filesystem_options }) rp = some
          { info with filesystem := some (CStr.lit fo.filesystem),
                      filesystem_options := some fo.filesystem_options } := by
        simp [get_root_info_for_path, hidx2, hinfo2]
      have h2 := ensure_unmounted_clears env (roots.set i
          { info with filesystem := some (CStr.lit fo.filesystem),
                      filesystem_options := some fo.filesystem_options })
        (mp :: (ensure_root_path_unmounted env roots st rp).2.1) rp
        { info with filesystem := some (CStr.lit fo.filesystem),
                    filesystem_options := some fo.filesystem_options }
        mp hscan (hunm mp) (List.nodup_cons.mpr ⟨h1.2.1, h1.2.2⟩) hres2 hmp
      rw [hdev, hmp] at h2
      rw [hmp]
      exact h2.2.1

theorem c2_witness :
    cs "/system" ∉ (detect_internal_fs envAll g_roots [cs "/system"] (cs "SYSTEM:")).2.1 :=
  c2_detect_leaves_unmounted envAll g_roots [cs "/system"] (cs "SYSTEM:") 3
    { name := cs "SYSTEM:", device := some (CStr.lit (cs "/dev/block/stl9")), device2 := none,
      partition_name := some (cs "system"), mount_point := some (cs "/system"),
      filesystem := some (CStr.lit (cs "unknown")), filesystem_options := none }
    (CStr.lit (cs "/dev/block/stl9")) (cs "/system")
    rfl (fun _ => rfl) (by simp) (by decide) (by decide) rfl rfl
